import Mathlib

/-!
Shallow embedding of the landscaping-app serverless core
(`src/serverless/src/functions/create_appointment.py` and
`src/serverless/src/functions/send_reminder.py`) and proofs of the
frozen claims about its natural-language specification.

External collaborators (the HTTP lookup services, `datetime.fromisoformat`,
the DynamoDB store, the SES/SNS providers, uuid/clock) are modelled as
explicit inputs: parse functions, result oracles and an explicit store
state threaded through the functions. Machine behaviour that the code
relies on (conditional writes, atomic two-item transactions) is modelled
by an explicit association-list store whose transaction either inserts
both items or fails with a `ClientError`, mirroring botocore.
-/

/-- Python truthiness-based `a or b` on an optional string: `None` and the
empty string are falsy, so both select the default. -/
def orElseStr (v : Option String) (d : String) : String :=
  match v with
  | some s => if s = "" then d else s
  | none => d

/-- Python truthiness of an optional string value (`body.get(k)` used in a
boolean context): `None` and `""` are falsy. -/
def truthy (s : Option String) : Option String :=
  match s with
  | some v => if v = "" then none else some v
  | none => none

/-- `leadMatch n h` holds when the char list `n` is an initial segment of `h`. -/
def leadMatch : List Char → List Char → Bool
  | [], _ => true
  | _ :: _, [] => false
  | a :: as, b :: bs => a == b && leadMatch as bs

/-- Occurrence of `n` as a contiguous segment of `h` (Python `n in h`). -/
def segMatch (n : List Char) : List Char → Bool
  | [] => leadMatch n []
  | b :: bs => leadMatch n (b :: bs) || segMatch n bs

/-- Python substring containment `needle in hay`. -/
def hasSubstr (needle hay : String) : Bool :=
  segMatch needle.data hay.data

/-- Python `s.lower()` (ASCII case folding suffices for the strings the
code compares). -/
def lowerStr (s : String) : String :=
  ⟨s.data.map Char.toLower⟩

/-- Python slice `s[:n]`. -/
def takeStr (n : Nat) (s : String) : String :=
  ⟨s.data.take n⟩

/-- Python `s.replace("-", "")`: the needle is a single character, so the
replacement drops every dash. -/
def removeDashes (s : String) : String :=
  ⟨s.data.filter (fun c => c ≠ '-')⟩

namespace CreateAppt

/-- Model of a Python `datetime`: a wall-clock reading (seconds) plus an
optional UTC offset in seconds (`None` = naive datetime). -/
structure PyDateTime where
  wall : Int
  tzoffset : Option Int
deriving DecidableEq

/-- Model of `datetime.isoformat()` — an injective rendering of the value. -/
def isoformat (d : PyDateTime) : String :=
  toString d.wall ++ (match d.tzoffset with
    | none => ""
    | some o => "+" ++ toString o)

/-- `to_utc` from create_appointment.py: parse the ISO-8601 string
(`datetime.fromisoformat` is external, passed as `parse`); a naive value
keeps its wall reading (treated as UTC), an aware value is converted by
subtracting its offset; the result is an aware UTC datetime. A parse
failure (Python exception) is `none`. -/
def to_utc (parse : String → Option PyDateTime) (s : String) : Option PyDateTime :=
  (parse s).map fun dt => ⟨dt.wall - (dt.tzoffset.getD 0), some 0⟩

/-- Response bodies produced by the handler, before the correlation id is
merged in by `response`. -/
inductive RespBody where
  | missingFields (error : String) (fields : List String)
  | err (error : String) (details : Option String) (entity_id : Option String)
  | created (appointment_id : String) (status : String) (scheduled_at : String)
      (location : String)
deriving DecidableEq

/-- The `error` key of a body dict (`client_error["error"]`). -/
def errorField : RespBody → String
  | .missingFields e _ => e
  | .err e _ _ => e
  | .created _ _ _ _ => ""

/-- The status chosen for a failed upstream validation:
`404 if "not found" in error["error"].lower() else 503`. -/
def upstreamStatus (e : RespBody) : Nat :=
  if hasSubstr "not found" (lowerStr (errorField e)) then 404 else 503

/-- API Gateway response envelope built by `response(...)`: the correlation
id is placed in the `X-Correlation-Id` header and merged into the JSON body
(`{**body, "correlation_id": correlation_id}`, modelled as the separate
field `body_correlation_id`). -/
structure Resp where
  statusCode : Nat
  headers : List (String × String)
  body : RespBody
  body_correlation_id : String
deriving DecidableEq

/-- `response()` from create_appointment.py (the optional extra-headers
parameter is never passed by any caller and is omitted). -/
def response (status : Nat) (body : RespBody) (correlation_id : String) : Resp :=
  { statusCode := status
    headers := [("Content-Type", "application/json"),
                ("Cache-Control", "no-store"),
                ("X-Correlation-Id", correlation_id)]
    body := body
    body_correlation_id := correlation_id }

/-- JSON payload of a create request; `none` = key absent. -/
structure Payload where
  client_id : Option String
  service_id : Option String
  scheduled_at : Option String
  location : Option String
  notes : Option String

/-- Incoming API Gateway event: headers plus the JSON-decoded body
(`none` models a `json.JSONDecodeError`; an absent body decodes `"{}"`,
i.e. a payload with every field absent). -/
structure Event where
  headers : List (String × String)
  parsedBody : Option Payload

/-- `get_header`: case-insensitive lookup in the event's headers. -/
def get_header (e : Event) (name : String) : Option String :=
  (e.headers.find? (fun kv => lowerStr kv.1 == lowerStr name)).map (fun kv => kv.2)

/-- The correlation id the handler uses:
`get_header(event, "X-Correlation-Id") or f"cor-{uuid4().hex}"`
(`genCid` is the externally supplied random hex). -/
def corrId (genCid : String) (e : Event) : String :=
  orElseStr (get_header e "X-Correlation-Id") ("cor-" ++ genCid)

/-- Outcome of one upstream lookup HTTP call: a response with a status code
and body, a `requests.Timeout`, or another transport exception. -/
inductive UpstreamResult where
  | http (status : Nat) (body : String)
  | timeout
  | exn (msg : String)

/-- Classification of an upstream call outcome as "not found" (the lookup
service answered 404); every other failing outcome (non-200/404 status,
timeout, transport failure) is the "unavailable" classification. -/
def isNotFoundResult : UpstreamResult → Bool
  | .http code _ => code == 404
  | .timeout => false
  | .exn _ => false

/-- `validate_client` from create_appointment.py: maps the upstream call's
outcome to `(exists, client_data, error_response)`. -/
def validate_client (client_id : String) (r : UpstreamResult) :
    Bool × Option String × Option RespBody :=
  match r with
  | .http code body =>
    if code = 404 then
      (false, none, some (.err "Client not found" none (some client_id)))
    else if code ≠ 200 then
      (false, none, some (.err "Failed to verify client"
        (some ("User service returned status " ++ toString code)) none))
    else
      (true, some body, none)
  | .timeout =>
    (false, none, some (.err "Service timeout"
      (some "User service did not respond in time") none))
  | .exn _ =>
    (false, none, some (.err "Internal error" (some "Failed to validate client") none))

/-- `validate_service` from create_appointment.py; `servicesConfigured`
models whether `SERVICES_SERVICE_URL` is set. -/
def validate_service (service_id : String) (servicesConfigured : Bool)
    (r : UpstreamResult) : Bool × Option String × Option RespBody :=
  if servicesConfigured = false then
    (false, none, some (.err "Service configuration error"
      (some "Services service unavailable") none))
  else
    match r with
    | .http code body =>
      if code = 404 then
        (false, none, some (.err "Service not found" none (some service_id)))
      else if code ≠ 200 then
        (false, none, some (.err "Failed to verify service"
          (some ("Services service returned status " ++ toString code)) none))
      else
        (true, some body, none)
    | .timeout =>
      (false, none, some (.err "Service timeout"
        (some "Services service did not respond in time") none))
    | .exn _ =>
      (false, none, some (.err "Internal error" (some "Failed to validate service") none))

/-- The required fields of `validate_payload`. -/
def requiredFields : List String :=
  ["client_id", "service_id", "scheduled_at", "location"]

/-- Membership test `f in payload` for the required field names. -/
def hasField (p : Payload) : String → Bool
  | "client_id" => p.client_id.isSome
  | "service_id" => p.service_id.isSome
  | "scheduled_at" => p.scheduled_at.isSome
  | "location" => p.location.isSome
  | _ => false

/-- `validate_payload` from create_appointment.py: returns
`(is_valid, error_response_or_none)`. -/
def validate_payload (parse : String → Option PyDateTime) (p : Payload)
    (correlation_id : String) : Bool × Option Resp :=
  if requiredFields.filter (fun f => !(hasField p f)) ≠ [] then
    (false, some (response 400
      (.missingFields "Missing required fields"
        (requiredFields.filter (fun f => !(hasField p f))))
      correlation_id))
  else if (to_utc parse (p.scheduled_at.getD "")).isNone then
    (false, some (response 400
      (.err "scheduled_at must be valid ISO-8601 datetime" none none) correlation_id))
  else if (p.notes.getD "").length > 1024 then
    (false, some (response 400
      (.err "notes must not exceed 1024 characters" none none) correlation_id))
  else
    (true, none)

/-- An appointment record as written to the store. -/
structure ApptItem where
  appointment_id : String
  client_id : String
  service_id : String
  scheduled_at : String
  gsi_date_pk : String
  location : String
  status : String
  notes : String
  weather_risk : String
  correlation_id : String
  created_at : String
deriving DecidableEq

/-- An item of the appointments table: an appointment record or a
uniqueness marker (`type = "uniqueness_marker"` with `ref_appointment_id`). -/
inductive Item where
  | appt (a : ApptItem)
  | marker (ref_appointment_id : String) (created_at : String)
deriving DecidableEq

/-- The appointments table, keyed by the `appointment_id` attribute. -/
abbrev Store := List (String × Item)

/-- A botocore `ClientError` as raised by `transact_write_items`: the error
code, plus the per-item cancellation reasons that DynamoDB attaches to a
`TransactionCanceledException` (the code under test never reads them). -/
structure ClientError where
  code : String
  cancellationReasons : List String
deriving DecidableEq

/-- Refinement definition, following the spec's words rather than the
source: a store error "carries the specific conditional-check-failure
signal (a failed absence precondition)" when it is a
`ConditionalCheckFailedException`, or a transaction cancellation at least
one of whose per-item cancellation reasons is `ConditionalCheckFailed`.
A `TransactionCanceledException` whose reasons are all of another kind
(e.g. `TransactionConflict`, throttling, validation) does not carry it. -/
def carriesPreconditionFailureSignal (e : ClientError) : Bool :=
  e.code == "ConditionalCheckFailedException"
    || e.cancellationReasons.contains "ConditionalCheckFailed"

/-- The error-handling block of `create_appointment` (lines 408–433): a
`ClientError` whose code is `TransactionCanceledException` or
`ConditionalCheckFailedException` is reported as a 409 duplicate; any
other code is a 500. -/
def classify_store_error (e : ClientError) : Nat × RespBody :=
  if e.code = "TransactionCanceledException" ∨ e.code = "ConditionalCheckFailedException" then
    (409, .err "Appointment already exists for this client, service, and time slot"
      none none)
  else
    (500, .err "Failed to create appointment" none none)

/-- The atomic two-item `transact_write_items`: put the uniqueness marker
and the appointment record, each under `attribute_not_exists(appointment_id)`.
If either key already exists the whole unit fails with a
`TransactionCanceledException` carrying per-item cancellation reasons;
otherwise both items are inserted. -/
def transact_write (store : Store) (uniq_key appointment_id : String)
    (item : ApptItem) (created_at : String) : Except ClientError Store :=
  if (store.lookup uniq_key).isSome ∨ (store.lookup appointment_id).isSome then
    .error ⟨"TransactionCanceledException",
      [(if (store.lookup uniq_key).isSome then "ConditionalCheckFailed" else "None"),
       (if (store.lookup appointment_id).isSome then "ConditionalCheckFailed" else "None")]⟩
  else
    .ok ((uniq_key, Item.marker appointment_id created_at)
      :: (appointment_id, Item.appt item) :: store)

/-- The uniqueness fingerprint key
`f"UNIQ#{client_id}#{service_id}#{scheduled_iso}#{location}"`. -/
def uniqKeyOf (client_id service_id scheduled_iso location : String) : String :=
  "UNIQ#" ++ client_id ++ "#" ++ service_id ++ "#" ++ scheduled_iso ++ "#" ++ location

/-- Result of `create_appointment`: the `(status_code, body)` pair returned
to the handler, together with the resulting store state and whether the
store transaction was attempted at all. -/
structure CreateOut where
  status : Nat
  body : RespBody
  store : Store
  txAttempted : Bool
deriving DecidableEq

/-- `create_appointment` from create_appointment.py. The upstream lookup
outcomes (`clientRes`, `serviceRes`) are the results the two concurrently
issued calls eventually produce — both are awaited before any decision.
`apptUuid` is the external `uuid4().hex`, `createdAt` the external clock.
The unreachable `none` branch (the handler only calls this after
`validate_payload` has checked `to_utc` succeeds) mirrors the 500 an
escaping exception would produce. -/
def create_appointment (parse : String → Option PyDateTime) (p : Payload)
    (correlation_id : String) (clientRes serviceRes : UpstreamResult)
    (servicesConfigured : Bool) (apptUuid createdAt : String)
    (store : Store) : CreateOut :=
  let client_id := p.client_id.getD ""
  let service_id := p.service_id.getD ""
  let notes := p.notes.getD ""
  let location := p.location.getD ""
  match to_utc parse (p.scheduled_at.getD "") with
  | none => ⟨500, .err "Failed to create appointment" none none, store, false⟩
  | some dtUtc =>
    let scheduled_iso := isoformat dtUtc
    let clientOut := validate_client client_id clientRes
    let serviceOut := validate_service service_id servicesConfigured serviceRes
    if clientOut.1 = false then
      let e := clientOut.2.2.getD (.err "" none none)
      ⟨upstreamStatus e, e, store, false⟩
    else if serviceOut.1 = false then
      let e := serviceOut.2.2.getD (.err "" none none)
      ⟨upstreamStatus e, e, store, false⟩
    else
      let appointment_id := "apt_" ++ apptUuid
      let gsi_date_pk := removeDashes (takeStr 10 scheduled_iso)
      let appt_item : ApptItem :=
        ⟨appointment_id, client_id, service_id, scheduled_iso, gsi_date_pk,
         location, "scheduled", notes, "unknown", correlation_id, createdAt⟩
      let uniq_key := uniqKeyOf client_id service_id scheduled_iso location
      match transact_write store uniq_key appointment_id appt_item createdAt with
      | .error e =>
        let out := classify_store_error e
        ⟨out.1, out.2, store, true⟩
      | .ok store' =>
        ⟨201, .created appointment_id "scheduled" scheduled_iso location, store', true⟩

/-- Result of the Lambda `handler`: the HTTP response, the resulting store,
whether the upstream validations were invoked, and whether the store
transaction was attempted. -/
structure HandlerOut where
  resp : Resp
  store : Store
  upstreamCalled : Bool
  txAttempted : Bool
deriving DecidableEq

/-- The Lambda `handler` from create_appointment.py. -/
def handler (parse : String → Option PyDateTime) (genCid : String)
    (clientRes serviceRes : UpstreamResult) (servicesConfigured : Bool)
    (apptUuid createdAt : String) (e : Event) (store : Store) : HandlerOut :=
  let correlation_id := corrId genCid e
  match e.parsedBody with
  | none =>
    ⟨response 400 (.err "Invalid JSON body" none none) correlation_id, store, false, false⟩
  | some p =>
    let v := validate_payload parse p correlation_id
    if v.1 = false then
      ⟨v.2.getD (response 400 (.err "" none none) correlation_id), store, false, false⟩
    else
      let out := create_appointment parse p correlation_id clientRes serviceRes
        servicesConfigured apptUuid createdAt store
      ⟨response out.status out.body correlation_id, out.store, true, out.txAttempted⟩

/-- Sequentialisation of N create requests: the store's transactions are
the single point of mutual exclusion (spec §5), so any interleaving of N
concurrent requests is equivalent to running their atomic transactions in
some order; each request carries its own fresh uuid. -/
def runCreates (parse : String → Option PyDateTime) (p : Payload)
    (correlation_id : String) (clientRes serviceRes : UpstreamResult)
    (servicesConfigured : Bool) (createdAt : String) :
    List String → Store → List (Nat × RespBody) × Store
  | [], store => ([], store)
  | u :: us, store =>
    let out := create_appointment parse p correlation_id clientRes serviceRes
      servicesConfigured u createdAt store
    let rest := runCreates parse p correlation_id clientRes serviceRes
      servicesConfigured createdAt us out.store
    ((out.status, out.body) :: rest.1, rest.2)

/-- Fingerprint of a stored appointment record. -/
def fpOf (a : ApptItem) : String :=
  uniqKeyOf a.client_id a.service_id a.scheduled_at a.location

/-- Does this store entry hold an appointment with fingerprint `fp`? -/
def apptHasFp (fp : String) : String × Item → Bool
  | (_, Item.appt a) => fpOf a == fp
  | _ => false

/-- Number of appointment records in the store with fingerprint `fp`. -/
def countFp (s : Store) (fp : String) : Nat :=
  (s.filter (apptHasFp fp)).length

/-- Store invariant: every appointment record's fingerprint key is present
(the uniqueness marker guarding it), and no fingerprint has more than one
appointment record. All appointments are created with status `scheduled`
(status transitions live outside this core), so these are the non-cancelled
appointments of the claim. -/
def StoreInv (s : Store) : Prop :=
  (∀ k a, (k, Item.appt a) ∈ s → (s.lookup (fpOf a)).isSome = true) ∧
  (∀ fp, countFp s fp ≤ 1)

end CreateAppt

namespace Reminder

/-- A parsed queue-message body (`json.loads(r["body"])`); `none` on a
field = key absent. -/
structure Msg where
  notification_id : Option String
  user_id : Option String
  mtype : Option String
  correlation_id : Option String
  email : Option String
  phone_e164 : Option String

/-- Per-user notification preferences: global channel toggles plus
per-notification-type per-channel overrides. -/
structure Prefs where
  email : Bool
  sms : Bool
  push : Bool
  typeOverrides : List (String × List (String × Bool))

/-- `prefs.get(...)` default when the user has no preferences item. -/
def defaultPrefs : Prefs := ⟨false, false, false, []⟩

/-- `get_prefs` from send_reminder.py. -/
def get_prefs (tbl : List (String × Prefs)) (user_id : String) : Prefs :=
  (tbl.lookup user_id).getD defaultPrefs

/-- `type_over.get(c, True)` after `(prefs.get("types") or {}).get(notif_type, {})`:
a channel is allowed unless the type override explicitly disables it. -/
def overrideFor (p : Prefs) (mtype channel : String) : Bool :=
  match p.typeOverrides.lookup mtype with
  | none => true
  | some m =>
    match m.lookup channel with
    | none => true
    | some b => b

/-- A stored template item (fields may be absent). -/
structure TplItem where
  subject : Option String
  body : Option String

/-- `get_template` from send_reminder.py: the stored item or the default. -/
def get_template (tbl : Option TplItem) : TplItem :=
  tbl.getD ⟨some "Reminder", some "Your appointment is coming up."⟩

/-- A Dispatch Log entry as persisted in the send-logs table. -/
structure LogEntry where
  user_id : String
  mtype : String
  status : String
  attempts : Int
  correlation_id : String
  created_at : String
  sent_at : String
  ttl : Int
  last_error : Option String
  provider : List (String × String)
deriving DecidableEq

/-- The send-logs table, keyed by `notification_id`. -/
abbrev SendLog := List (String × LogEntry)

/-- `put_sendlog_once` from send_reminder.py: conditional insert
(`attribute_not_exists(notification_id)`); returns whether the insert
happened, and the resulting table. -/
def put_sendlog_once (st : SendLog) (notification_id : String)
    (entry : LogEntry) : Bool × SendLog :=
  if (st.lookup notification_id).isSome then
    (false, st)
  else
    (true, (notification_id, entry) :: st)

/-- The success-path `update_item`:
`SET status, attempts = attempts + 1, provider, sent_at`. -/
def update_sent_item (st : SendLog) (notification_id status : String)
    (provider : List (String × String)) (sent_at : String) : SendLog :=
  st.map fun kv =>
    if kv.1 == notification_id then
      (kv.1,
        { kv.2 with
            status := status
            attempts := kv.2.attempts + 1
            provider := provider
            sent_at := sent_at })
    else kv

/-- The failure-path `update_item`:
`SET status = "failed", attempts = attempts + 1, last_error`. -/
def update_failed_item (st : SendLog) (notification_id err : String) : SendLog :=
  st.map fun kv =>
    if kv.1 == notification_id then
      (kv.1,
        { kv.2 with
            status := "failed"
            attempts := kv.2.attempts + 1
            last_error := some err })
    else kv

/-- A provider invocation performed by the dispatcher. -/
inductive ProviderCall where
  | email (dest subject body : String)
  | sms (phone body : String)
deriving DecidableEq

/-- Outcome of processing one record (or a whole batch): the resulting
send-log table, the provider calls made, and the exception re-raised to
the transport, if any. -/
structure RecOut where
  log : SendLog
  calls : List ProviderCall
  raised : Option String
deriving DecidableEq

/-- External collaborators of one record's processing: the generated uuids,
the clock, the preference and template tables, and the SES/SNS providers
(each returns a provider message id or raises). -/
structure DispatchEnv where
  genNtf : String
  genCor : String
  now : String
  nowTs : Int
  prefsTable : List (String × Prefs)
  templatesTable : Option TplItem
  emailSend : String → String → String → Except String String
  smsSend : String → String → Except String String

/-- Tail of the `try` block after both channel attempts: the success-path
Dispatch Log update (status `sent` or `skipped`). -/
def finishRecord (env : DispatchEnv) (notification_id : String) (st : SendLog)
    (provider : List (String × String)) (sent_any : Bool)
    (calls : List ProviderCall) : RecOut :=
  ⟨update_sent_item st notification_id (if sent_any then "sent" else "skipped")
     provider env.now, calls, none⟩

/-- The SMS attempt of the `try` block: send if `"sms"` is allowed and a
phone number is present; on a raise, update the entry to `failed` and
re-raise. -/
def smsStep (env : DispatchEnv) (notification_id body_txt : String)
    (channels_allowed : List String) (phone : Option String) (st : SendLog)
    (provider : List (String × String)) (sent_any : Bool)
    (calls : List ProviderCall) : RecOut :=
  if channels_allowed.contains "sms" && phone.isSome then
    match env.smsSend (phone.getD "") body_txt with
    | .error e =>
      ⟨update_failed_item st notification_id e,
       calls ++ [ProviderCall.sms (phone.getD "") body_txt], some e⟩
    | .ok pid =>
      finishRecord env notification_id st (provider ++ [("sms_msg_id", pid)]) true
        (calls ++ [ProviderCall.sms (phone.getD "") body_txt])
  else
    finishRecord env notification_id st provider sent_any calls

/-- The email attempt of the `try` block, followed by the SMS attempt. -/
def emailStep (env : DispatchEnv) (notification_id subject body_txt : String)
    (channels_allowed : List String) (email phone : Option String)
    (st : SendLog) : RecOut :=
  if channels_allowed.contains "email" && email.isSome then
    match env.emailSend (email.getD "") subject body_txt with
    | .error e =>
      ⟨update_failed_item st notification_id e,
       [ProviderCall.email (email.getD "") subject body_txt], some e⟩
    | .ok pid =>
      smsStep env notification_id body_txt channels_allowed phone st
        [("email_msg_id", pid)] true
        [ProviderCall.email (email.getD "") subject body_txt]
  else
    smsStep env notification_id body_txt channels_allowed phone st [] false []

/-- The fresh Dispatch Log entry claimed for a first-seen notification id
(status `processing`, zero attempts, 90-day expiry). -/
def freshEntry (env : DispatchEnv) (user_id mtype correlation_id : String) : LogEntry :=
  ⟨user_id, mtype, "processing", 0, correlation_id, env.now,
   "1970-01-01T00:00:00Z", env.nowTs + 90 * 24 * 3600, none, []⟩

/-- The allowed channel set: globally enabled channels filtered by the
per-type overrides. -/
def channelsFor (env : DispatchEnv) (user_id mtype : String) : List String :=
  let prefs := get_prefs env.prefsTable user_id
  ((if prefs.email then ["email"] else [])
    ++ (if prefs.sms then ["sms"] else [])
    ++ (if prefs.push then ["push"] else [])).filter
      (fun c => overrideFor prefs mtype c)

/-- `tpl.get("subject", "Appointment reminder")`. -/
def subjectFor (env : DispatchEnv) : String :=
  (get_template env.templatesTable).subject.getD "Appointment reminder"

/-- `tpl.get("body", "Your appointment is coming up.")`. -/
def bodyTxtFor (env : DispatchEnv) : String :=
  (get_template env.templatesTable).body.getD "Your appointment is coming up."

/-- Processing of one queue record by the `handler` loop of
send_reminder.py (`rec = none` models a JSON parse failure: log and
continue). -/
def processRecord (env : DispatchEnv) (rec : Option Msg) (st : SendLog) : RecOut :=
  match rec with
  | none => ⟨st, [], none⟩
  | some m =>
    let notification_id := orElseStr m.notification_id ("ntf_" ++ env.genNtf)
    let mtype := m.mtype.getD "appointment.reminder"
    let correlation_id := orElseStr m.correlation_id ("req-" ++ env.genCor)
    match truthy m.user_id with
    | none => ⟨st, [], none⟩
    | some user_id =>
      let ins := put_sendlog_once st notification_id
        (freshEntry env user_id mtype correlation_id)
      if ins.1 = false then
        ⟨st, [], none⟩
      else
        emailStep env notification_id (subjectFor env) (bodyTxtFor env)
          (channelsFor env user_id mtype) (truthy m.email) (truthy m.phone_e164) ins.2

/-- The `for r in records:` loop of the `handler`: records are processed in
order; a raise from one record propagates out of the handler immediately,
so the remaining records are not processed in this invocation. -/
def runBatch : List (DispatchEnv × Option Msg) → SendLog → RecOut
  | [], st => ⟨st, [], none⟩
  | (env, rec) :: rest, st =>
    let out := processRecord env rec st
    match out.raised with
    | some e => ⟨out.log, out.calls, some e⟩
    | none =>
      let res := runBatch rest out.log
      ⟨res.log, out.calls ++ res.calls, res.raised⟩

end Reminder

open CreateAppt Reminder

/-! ## Concrete inputs used by witnesses and counterexamples -/

/-- Per-user preferences enabling only the email channel, used by the
concrete batch inputs below. -/
def prefsEmailOn : Prefs := ⟨true, false, false, []⟩

/-- A concrete dispatcher environment whose providers succeed. -/
def sampleEnv (g : String) : DispatchEnv :=
  ⟨g, g, "2026-02-03T00:00:00Z", 0, [("u1", prefsEmailOn)], none,
   fun _ _ _ => .ok "em-1", fun _ _ => .ok "sm-1"⟩

/-- A concrete dispatcher environment whose email provider raises. -/
def failEnv : DispatchEnv :=
  ⟨"gf", "gf", "2026-02-03T00:00:00Z", 0, [("u1", prefsEmailOn)], none,
   fun _ _ _ => .error "boom", fun _ _ => .ok "sm-1"⟩

/-- A concrete notification message carrying id `ntf-1`. -/
def msgA : Msg := ⟨some "ntf-1", some "u1", none, none, some "a@b.c", none⟩

/-- A concrete notification message carrying id `ntf-2`. -/
def msgB : Msg := ⟨some "ntf-2", some "u1", none, none, some "c@d.e", none⟩

/-- A concrete notification message with no notification id. -/
def msgNoId : Msg := ⟨none, some "u1", none, none, some "a@b.c", none⟩

/-- A send log holding a `failed` entry for `ntf-1` from a prior raising
attempt. -/
def logFailedN1 : SendLog :=
  [("ntf-1", ⟨"u1", "appointment.reminder", "failed", 1, "req-x", "t0",
    "1970-01-01T00:00:00Z", 7776000, some "boom", []⟩)]

/-- A send log holding a `sent` entry for `ntf-1` from a prior successful
send. -/
def logSentN1 : SendLog :=
  [("ntf-1", ⟨"u1", "appointment.reminder", "sent", 1, "req-x", "t0", "t1",
    7776000, none, [("email_msg_id", "em-1")]⟩)]

/-- A concrete external-parse oracle (`datetime.fromisoformat` stand-in)
used to evaluate the theorems at concrete inputs: it parses one aware and
one naive literal and rejects everything else. -/
def testParse : String → Option PyDateTime
  | "2031-05-01T10:00:00+02:00" => some ⟨3600, some 7200⟩
  | "2031-05-01T08:00:00" => some ⟨100, none⟩
  | _ => none

/-! ## Helper lemmas -/

/-- Every response built by `response` carries the correlation id in the
`X-Correlation-Id` header and in the body. -/
theorem response_carries_correlation (st : Nat) (b : RespBody) (cid : String) :
    (CreateAppt.response st b cid).headers.lookup "X-Correlation-Id" = some cid ∧
    (CreateAppt.response st b cid).body_correlation_id = cid := by
  constructor
  · simp [CreateAppt.response, List.lookup]
  · rfl

/-- A failed `validate_payload` returns a 400 response carrying the given
correlation id. -/
theorem validate_payload_err (parse : String → Option PyDateTime) (p : Payload)
    (cid : String) (h : (validate_payload parse p cid).1 = false) :
    ∃ b, (validate_payload parse p cid).2 = some (CreateAppt.response 400 b cid) := by
  unfold validate_payload at h ⊢
  split_ifs at h ⊢ with h1 h2 h3
  · exact ⟨_, rfl⟩
  · exact ⟨_, rfl⟩
  · exact ⟨_, rfl⟩

/-- Every handler response is built by `response` with the handler's
correlation id. -/
theorem handler_resp_is_response (parse : String → Option PyDateTime)
    (genCid : String) (cres sres : UpstreamResult) (cfg : Bool) (u ca : String)
    (e : Event) (store : Store) :
    ∃ st b, (handler parse genCid cres sres cfg u ca e store).resp =
      CreateAppt.response st b (corrId genCid e) := by
  unfold handler
  cases hb : e.parsedBody with
  | none => exact ⟨400, _, rfl⟩
  | some p =>
    by_cases hv : (validate_payload parse p (corrId genCid e)).1 = false
    · obtain ⟨b, hb2⟩ := validate_payload_err parse p (corrId genCid e) hv
      refine ⟨400, b, ?_⟩
      simp [hv, hb2]
    · simp [hv]
      exact ⟨_, _, rfl⟩

/-- The error `validate_client` reports for a failing lookup is classified
404 exactly when the upstream answered 404 (the substring test on the
error message agrees with the outcome classification). -/
theorem client_error_status (client_id : String) (r : UpstreamResult)
    (h : (validate_client client_id r).1 = false) :
    upstreamStatus ((validate_client client_id r).2.2.getD (.err "" none none)) =
      if isNotFoundResult r then 404 else 503 := by
  cases r with
  | http code body =>
    by_cases h404 : code = 404
    · subst h404
      have hs : hasSubstr "not found" (lowerStr "Client not found") = true := by decide
      simp [validate_client, isNotFoundResult, upstreamStatus, errorField, hs]
    · by_cases h200 : code = 200
      · subst h200
        simp [validate_client] at h
      · have hs : hasSubstr "not found" (lowerStr "Failed to verify client") = false := by
          decide
        simp [validate_client, isNotFoundResult, upstreamStatus, errorField,
          h404, h200, hs]
  | timeout =>
    have hs : hasSubstr "not found" (lowerStr "Service timeout") = false := by decide
    simp [validate_client, isNotFoundResult, upstreamStatus, errorField, hs]
  | exn m =>
    have hs : hasSubstr "not found" (lowerStr "Internal error") = false := by decide
    simp [validate_client, isNotFoundResult, upstreamStatus, errorField, hs]

/-- Same agreement for `validate_service` when the service URL is
configured. -/
theorem service_error_status (service_id : String) (r : UpstreamResult)
    (h : (validate_service service_id true r).1 = false) :
    upstreamStatus ((validate_service service_id true r).2.2.getD (.err "" none none)) =
      if isNotFoundResult r then 404 else 503 := by
  cases r with
  | http code body =>
    by_cases h404 : code = 404
    · subst h404
      have hs : hasSubstr "not found" (lowerStr "Service not found") = true := by decide
      simp [validate_service, isNotFoundResult, upstreamStatus, errorField, hs]
    · by_cases h200 : code = 200
      · subst h200
        simp [validate_service] at h
      · have hs : hasSubstr "not found" (lowerStr "Failed to verify service") = false := by
          decide
        simp [validate_service, isNotFoundResult, upstreamStatus, errorField,
          h404, h200, hs]
  | timeout =>
    have hs : hasSubstr "not found" (lowerStr "Service timeout") = false := by decide
    simp [validate_service, isNotFoundResult, upstreamStatus, errorField, hs]
  | exn m =>
    have hs : hasSubstr "not found" (lowerStr "Internal error") = false := by decide
    simp [validate_service, isNotFoundResult, upstreamStatus, errorField, hs]

/-- `create_appointment` when the client validation fails: the client's
error is returned with the substring-derived status and the store is not
touched. -/
theorem create_client_fail (parse : String → Option PyDateTime) (p : Payload)
    (cid : String) (cres sres : UpstreamResult) (cfg : Bool) (u ca : String)
    (store : Store) (dtU : PyDateTime)
    (hdt : to_utc parse (p.scheduled_at.getD "") = some dtU)
    (hc : (validate_client (p.client_id.getD "") cres).1 = false) :
    create_appointment parse p cid cres sres cfg u ca store =
      ⟨upstreamStatus ((validate_client (p.client_id.getD "") cres).2.2.getD
          (.err "" none none)),
        (validate_client (p.client_id.getD "") cres).2.2.getD (.err "" none none),
        store, false⟩ := by
  unfold create_appointment
  rw [hdt]
  simp [hc]

/-- `create_appointment` when the client validates but the service
validation fails. -/
theorem create_service_fail (parse : String → Option PyDateTime) (p : Payload)
    (cid : String) (cres sres : UpstreamResult) (cfg : Bool) (u ca : String)
    (store : Store) (dtU : PyDateTime)
    (hdt : to_utc parse (p.scheduled_at.getD "") = some dtU)
    (hc : (validate_client (p.client_id.getD "") cres).1 = true)
    (hs : (validate_service (p.service_id.getD "") cfg sres).1 = false) :
    create_appointment parse p cid cres sres cfg u ca store =
      ⟨upstreamStatus ((validate_service (p.service_id.getD "") cfg sres).2.2.getD
          (.err "" none none)),
        (validate_service (p.service_id.getD "") cfg sres).2.2.getD (.err "" none none),
        store, false⟩ := by
  unfold create_appointment
  rw [hdt]
  simp [hc, hs]

/-- `create_appointment` on the success path: both validations pass and
both fingerprint keys are absent, so the atomic write inserts the marker
and the record and a 201 is returned. -/
theorem create_ok (parse : String → Option PyDateTime) (p : Payload)
    (cid cb sb u ca : String) (store : Store) (dtU : PyDateTime)
    (hdt : to_utc parse (p.scheduled_at.getD "") = some dtU)
    (hm : store.lookup (uniqKeyOf (p.client_id.getD "") (p.service_id.getD "")
        (isoformat dtU) (p.location.getD "")) = none)
    (ha : store.lookup ("apt_" ++ u) = none) :
    create_appointment parse p cid (.http 200 cb) (.http 200 sb) true u ca store =
      ⟨201,
        .created ("apt_" ++ u) "scheduled" (isoformat dtU) (p.location.getD ""),
        (uniqKeyOf (p.client_id.getD "") (p.service_id.getD "") (isoformat dtU)
            (p.location.getD ""),
          Item.marker ("apt_" ++ u) ca) ::
        ("apt_" ++ u,
          Item.appt ⟨"apt_" ++ u, p.client_id.getD "", p.service_id.getD "",
            isoformat dtU, removeDashes (takeStr 10 (isoformat dtU)),
            p.location.getD "", "scheduled", p.notes.getD "", "unknown", cid, ca⟩) ::
        store,
        true⟩ := by
  unfold create_appointment
  rw [hdt]
  simp [validate_client, validate_service, transact_write, hm, ha]

/-- `create_appointment` when the fingerprint's uniqueness marker already
exists: the transaction fails its absence precondition and a 409 is
returned; the store is unchanged. -/
theorem create_dup (parse : String → Option PyDateTime) (p : Payload)
    (cid cb sb u ca : String) (store : Store) (dtU : PyDateTime)
    (hdt : to_utc parse (p.scheduled_at.getD "") = some dtU)
    (hm : (store.lookup (uniqKeyOf (p.client_id.getD "") (p.service_id.getD "")
        (isoformat dtU) (p.location.getD ""))).isSome = true) :
    create_appointment parse p cid (.http 200 cb) (.http 200 sb) true u ca store =
      ⟨409,
        .err "Appointment already exists for this client, service, and time slot"
          none none,
        store, true⟩ := by
  unfold create_appointment
  rw [hdt]
  simp [validate_client, validate_service, transact_write, hm, classify_store_error]

/-- Prepending an entry preserves presence of a key in the store. -/
theorem lookup_cons_isSome (kv : String × Item) (s : Store) (x : String)
    (h : (s.lookup x).isSome = true) :
    (((kv :: s) : Store).lookup x).isSome = true := by
  cases kv with
  | mk k v =>
    simp only [List.lookup]
    cases hk : x == k
    · simpa [hk] using h
    · simp [hk]

/-- The atomic insert of a fresh uniqueness marker and its guarded
appointment record preserves the store invariant. -/
theorem storeInv_insert (store : Store) (uk ak ca : String) (item : ApptItem)
    (hinv : StoreInv store) (hm : store.lookup uk = none) (hfp : fpOf item = uk) :
    StoreInv ((uk, Item.marker ak ca) :: (ak, Item.appt item) :: store) := by
  obtain ⟨h1, h2⟩ := hinv
  constructor
  · intro k a hmem
    simp only [List.mem_cons] at hmem
    rcases hmem with hmem | hmem | hmem
    · simp at hmem
    · simp only [Prod.mk.injEq, Item.appt.injEq] at hmem
      obtain ⟨hk, ha⟩ := hmem
      subst ha
      rw [hfp]
      simp [List.lookup]
    · apply lookup_cons_isSome
      apply lookup_cons_isSome
      exact h1 k a hmem
  · intro fp
    have hmarker : apptHasFp fp (uk, Item.marker ak ca) = false := rfl
    by_cases hfpk : (fpOf item == fp) = true
    · have hfpeq : uk = fp := by
        rw [← hfp]
        exact beq_iff_eq.mp hfpk
      have hzero : store.filter (apptHasFp fp) = [] := by
        rw [List.filter_eq_nil_iff]
        intro kv hkv hp
        cases kv with
        | mk k v =>
          cases v with
          | appt a =>
            have hfpa : fpOf a = fp := beq_iff_eq.mp (by simpa [apptHasFp] using hp)
            have := h1 k a hkv
            rw [hfpa, ← hfpeq, hm] at this
            simp at this
          | marker r c => simp [apptHasFp] at hp
      simp [countFp, List.filter_cons, hmarker, apptHasFp, hfpk, hzero]
    · have hitem : apptHasFp fp (ak, Item.appt item) = false := by
        simp [apptHasFp]
        simpa using hfpk
      calc countFp ((uk, Item.marker ak ca) :: (ak, Item.appt item) :: store) fp
          = countFp store fp := by
            simp [countFp, List.filter_cons, hmarker, hitem]
        _ ≤ 1 := h2 fp

/-- `create_appointment` preserves the store invariant on every path. -/
theorem storeInv_create (parse : String → Option PyDateTime) (p : Payload)
    (cid : String) (cres sres : UpstreamResult) (cfg : Bool) (u ca : String)
    (store : Store) (hinv : StoreInv store) :
    StoreInv (create_appointment parse p cid cres sres cfg u ca store).store := by
  unfold create_appointment
  cases hdt : to_utc parse (p.scheduled_at.getD "") with
  | none => exact hinv
  | some dtU =>
    simp only
    split
    · exact hinv
    · split
      · exact hinv
      · unfold transact_write
        by_cases hcond : ((store.lookup (uniqKeyOf (p.client_id.getD "")
              (p.service_id.getD "") (isoformat dtU) (p.location.getD ""))).isSome = true
            ∨ (store.lookup ("apt_" ++ u)).isSome = true)
        · rw [if_pos hcond]
          exact hinv
        · rw [if_neg hcond]
          refine storeInv_insert store _ _ ca _ hinv ?_ rfl
          rcases h : (store.lookup (uniqKeyOf (p.client_id.getD "")
              (p.service_id.getD "") (isoformat dtU) (p.location.getD ""))) with _ | v
          · rfl
          · exact absurd (Or.inl (by rw [h]; rfl)) hcond

/-- Once the fingerprint's marker is present, every further identical
create attempt returns 409 and leaves the store unchanged. -/
theorem runCreates_dup (parse : String → Option PyDateTime) (p : Payload)
    (cid cb sb ca : String) (us : List String) (store : Store) (dtU : PyDateTime)
    (hdt : to_utc parse (p.scheduled_at.getD "") = some dtU)
    (hm : (store.lookup (uniqKeyOf (p.client_id.getD "") (p.service_id.getD "")
        (isoformat dtU) (p.location.getD ""))).isSome = true) :
    runCreates parse p cid (.http 200 cb) (.http 200 sb) true ca us store =
      (us.map (fun _ =>
        ((409 : Nat),
          RespBody.err
            "Appointment already exists for this client, service, and time slot"
            none none)), store) := by
  induction us with
  | nil => rfl
  | cons v vs ih =>
    unfold runCreates
    rw [create_dup parse p cid cb sb v ca store dtU hdt hm]
    simp only [List.map_cons]
    rw [ih]

/-- A record whose notification id already has a Dispatch Log entry is
skipped whole: no provider call, no log change, no raise — regardless of
the entry's status. -/
theorem processRecord_skip (env : DispatchEnv) (m : Msg) (st : SendLog)
    (nid : String) (hid : m.notification_id = some nid) (hne : nid ≠ "")
    (hdup : (st.lookup nid).isSome = true) :
    processRecord env (some m) st = ⟨st, [], none⟩ := by
  unfold processRecord
  simp only [hid, orElseStr]
  rw [if_neg hne]
  cases hu : truthy m.user_id with
  | none => simp [hu]
  | some uu => simp [hu, put_sendlog_once, hdup]

/-- A record whose notification id is fresh proceeds past the dedup: the
`processing` entry is inserted and the channel phase runs on the extended
log. -/
theorem processRecord_fresh (env : DispatchEnv) (m : Msg) (st : SendLog)
    (nid u : String)
    (hid : orElseStr m.notification_id ("ntf_" ++ env.genNtf) = nid)
    (hu : truthy m.user_id = some u)
    (hfresh : st.lookup nid = none) :
    processRecord env (some m) st =
      emailStep env nid (subjectFor env) (bodyTxtFor env)
        (channelsFor env u (m.mtype.getD "appointment.reminder"))
        (truthy m.email) (truthy m.phone_e164)
        ((nid, freshEntry env u (m.mtype.getD "appointment.reminder")
            (orElseStr m.correlation_id ("req-" ++ env.genCor))) :: st) := by
  unfold processRecord
  simp only [hid, hu]
  simp [put_sendlog_once, hfresh]

/-- Key-presence in the send log is invariant under the success-path
update. -/
theorem lookup_update_sent_isSome (st : SendLog) (nid s : String)
    (pr : List (String × String)) (t k : String) :
    ((update_sent_item st nid s pr t).lookup k).isSome = ((st.lookup k).isSome) := by
  induction st with
  | nil => rfl
  | cons kv tl ih =>
    cases kv with
    | mk k0 e0 =>
      simp only [update_sent_item, List.map_cons]
      by_cases hk : (k0 == nid) = true
      · simp only [hk, if_true]
        simp only [List.lookup]
        cases hkk : k == k0
        · simpa [update_sent_item] using ih
        · rfl
      · simp only [hk]
        simp only [Bool.false_eq_true, if_false, List.lookup]
        cases hkk : k == k0
        · simpa [update_sent_item] using ih
        · rfl

/-- Key-presence in the send log is invariant under the failure-path
update. -/
theorem lookup_update_failed_isSome (st : SendLog) (nid err k : String) :
    ((update_failed_item st nid err).lookup k).isSome = ((st.lookup k).isSome) := by
  induction st with
  | nil => rfl
  | cons kv tl ih =>
    cases kv with
    | mk k0 e0 =>
      simp only [update_failed_item, List.map_cons]
      by_cases hk : (k0 == nid) = true
      · simp only [hk, if_true]
        simp only [List.lookup]
        cases hkk : k == k0
        · simpa [update_failed_item] using ih
        · rfl
      · simp only [hk]
        simp only [Bool.false_eq_true, if_false, List.lookup]
        cases hkk : k == k0
        · simpa [update_failed_item] using ih
        · rfl

/-- The channel phase never removes a key from the send log. -/
theorem emailStep_lookup_isSome (env : DispatchEnv)
    (nid subject body : String) (ch : List String) (email phone : Option String)
    (st : SendLog) (k : String) :
    (((emailStep env nid subject body ch email phone st).log.lookup k).isSome) =
      ((st.lookup k).isSome) := by
  unfold emailStep smsStep finishRecord
  by_cases h1 : (ch.contains "email" && email.isSome) = true
  · simp only [h1, if_true]
    cases he : env.emailSend (email.getD "") subject body
    · simp [lookup_update_failed_isSome]
    · by_cases h2 : (ch.contains "sms" && phone.isSome) = true
      · simp only [h2, if_true]
        cases hs : env.smsSend (phone.getD "") body
        · simp [lookup_update_failed_isSome]
        · simp [lookup_update_sent_isSome]
      · simp only [h2]
        simp [lookup_update_sent_isSome]
  · simp only [h1]
    by_cases h2 : (ch.contains "sms" && phone.isSome) = true
    · simp only [h2, if_true]
      cases hs : env.smsSend (phone.getD "") body
      · simp [lookup_update_failed_isSome]
      · simp [lookup_update_sent_isSome]
    · simp only [h2]
      simp [lookup_update_sent_isSome]

/-- The provider calls made by the channel phase do not depend on the
send-log state. -/
theorem emailStep_calls_indep (env : DispatchEnv)
    (nid subject body : String) (ch : List String) (email phone : Option String)
    (st st' : SendLog) :
    (emailStep env nid subject body ch email phone st).calls =
      (emailStep env nid subject body ch email phone st').calls := by
  unfold emailStep smsStep finishRecord
  by_cases h1 : (ch.contains "email" && email.isSome) = true
  · simp only [h1, if_true]
    cases he : env.emailSend (email.getD "") subject body
    · rfl
    · by_cases h2 : (ch.contains "sms" && phone.isSome) = true
      · simp only [h2, if_true]
        cases hs : env.smsSend (phone.getD "") body
        · rfl
        · rfl
      · simp only [h2]
        rfl
  · simp only [h1]
    by_cases h2 : (ch.contains "sms" && phone.isSome) = true
    · simp only [h2, if_true]
      cases hs : env.smsSend (phone.getD "") body
      · rfl
      · rfl
    · simp only [h2]
      rfl

/-- If the channel phase re-raises, the log it leaves behind is the
failure-path update of its input log. -/
theorem emailStep_raised (env : DispatchEnv)
    (nid subject body : String) (ch : List String) (email phone : Option String)
    (st : SendLog) (ex : String)
    (h : (emailStep env nid subject body ch email phone st).raised = some ex) :
    (emailStep env nid subject body ch email phone st).log =
      update_failed_item st nid ex := by
  unfold emailStep smsStep finishRecord at h ⊢
  by_cases h1 : (ch.contains "email" && email.isSome) = true
  · simp only [h1, if_true] at h ⊢
    cases he : env.emailSend (email.getD "") subject body with
    | error e =>
      simp only [he] at h ⊢
      obtain rfl : e = ex := by simpa using h
      rfl
    | ok pid =>
      simp only [he] at h ⊢
      by_cases h2 : (ch.contains "sms" && phone.isSome) = true
      · simp only [h2, if_true] at h ⊢
        cases hs : env.smsSend (phone.getD "") body with
        | error e =>
          simp only [hs] at h ⊢
          obtain rfl : e = ex := by simpa using h
          rfl
        | ok pid2 =>
          simp only [hs] at h
          simp at h
      · simp only [h2] at h
        simp at h
  · simp only [h1] at h ⊢
    by_cases h2 : (ch.contains "sms" && phone.isSome) = true
    · simp only [h2, if_true] at h ⊢
      cases hs : env.smsSend (phone.getD "") body with
      | error e =>
        simp only [hs] at h ⊢
        obtain rfl : e = ex := by simpa using h
        rfl
      | ok pid2 =>
        simp only [hs] at h
        simp at h
    · simp only [h2] at h
      simp at h

/-- The failure-path update of a log whose head is the freshly inserted
`processing` entry yields that entry marked `failed` with one attempt. -/
theorem update_failed_head (st : SendLog) (nid : String) (e0 : LogEntry)
    (ex : String) :
    (update_failed_item ((nid, e0) :: st) nid ex).lookup nid =
      some
        { e0 with
            status := "failed"
            attempts := e0.attempts + 1
            last_error := some ex } := by
  have hstep : update_failed_item ((nid, e0) :: st) nid ex =
      (nid,
        { e0 with
            status := "failed"
            attempts := e0.attempts + 1
            last_error := some ex }) :: update_failed_item st nid ex := by
    simp [update_failed_item]
  rw [hstep]
  simp [List.lookup]

/-- A batch whose prefix completes without a raise continues into its
suffix from the prefix's final log. -/
theorem runBatch_append (xs ys : List (DispatchEnv × Option Msg)) (st : SendLog)
    (h : (runBatch xs st).raised = none) :
    runBatch (xs ++ ys) st =
      ⟨(runBatch ys (runBatch xs st).log).log,
       (runBatch xs st).calls ++ (runBatch ys (runBatch xs st).log).calls,
       (runBatch ys (runBatch xs st).log).raised⟩ := by
  induction xs generalizing st with
  | nil => simp [runBatch]
  | cons x tail ih =>
    obtain ⟨e, r⟩ := x
    simp only [List.cons_append, runBatch] at h ⊢
    cases ho : (processRecord e r st).raised with
    | some ex => simp [ho] at h
    | none =>
      simp only [ho] at h ⊢
      simp only [List.append_eq]
      rw [ih ((processRecord e r st).log) h]
      simp

/-- If processing a record re-raises, the raising message's Dispatch Log
entry has been durably updated first: it is present with status `failed`,
one attempt, and the raised error recorded. -/
theorem processRecord_raised (env : DispatchEnv) (m : Msg) (st : SendLog)
    (ex : String) (h : (processRecord env (some m) st).raised = some ex) :
    ∃ en, (processRecord env (some m) st).log.lookup
        (orElseStr m.notification_id ("ntf_" ++ env.genNtf)) = some en ∧
      en.status = "failed" ∧ en.attempts = 1 ∧ en.last_error = some ex := by
  cases hu : truthy m.user_id with
  | none =>
    unfold processRecord at h
    simp [hu] at h
  | some u =>
    by_cases hdup : ((st.lookup
        (orElseStr m.notification_id ("ntf_" ++ env.genNtf))).isSome = true)
    · unfold processRecord at h
      simp [hu, put_sendlog_once, hdup] at h
    · have hfresh : st.lookup (orElseStr m.notification_id ("ntf_" ++ env.genNtf))
          = none := by
        cases hl : st.lookup (orElseStr m.notification_id ("ntf_" ++ env.genNtf))
        · rfl
        · rw [hl] at hdup
          simp at hdup
      have hpr := processRecord_fresh env m st
        (orElseStr m.notification_id ("ntf_" ++ env.genNtf)) u rfl hu hfresh
      rw [hpr] at h ⊢
      rw [emailStep_raised env _ (subjectFor env) (bodyTxtFor env)
        (channelsFor env u (m.mtype.getD "appointment.reminder"))
        (truthy m.email) (truthy m.phone_e164) _ ex h]
      exact ⟨_, update_failed_head st _ _ ex, rfl, rfl, rfl⟩


/-! ## Claim theorems -/

/-- Claim C5: re-delivering a message whose notification id already has a
Dispatch Log entry — in particular after a prior successful send — any
number of times performs zero provider sends, creates no new entry, leaves
every field of the existing entry (including the attempts count)
unchanged, and raises nothing: the batch state is exactly the input
state. -/
theorem c5_duplicate_delivery_noop (m : Msg) (st : SendLog) (nid : String)
    (hid : m.notification_id = some nid) (hne : nid ≠ "")
    (hdup : (st.lookup nid).isSome = true) (envs : List DispatchEnv) :
    runBatch (envs.map (fun env => (env, some m))) st = ⟨st, [], none⟩ := by
  induction envs with
  | nil => rfl
  | cons e es ih =>
    simp only [List.map_cons, runBatch]
    rw [processRecord_skip e m st nid hid hne hdup]
    simp only
    rw [ih]
    rfl

/-- Witness for C5: two redeliveries of `ntf-1` after a prior successful
send leave the log identical and make no provider call. -/
theorem c5_duplicate_delivery_noop_witness :
    runBatch ([sampleEnv "a", sampleEnv "b"].map (fun env => (env, some msgA)))
        logSentN1 = ⟨logSentN1, [], none⟩ :=
  c5_duplicate_delivery_noop msgA logSentN1 "ntf-1" rfl (by decide) (by decide)
    [sampleEnv "a", sampleEnv "b"]

/-- Claim C2 is contradicted by the code: redelivering a message whose
notification id holds a `failed` Dispatch Log entry is blocked by the
dedup conditional insert (`put_sendlog_once` finds the entry and the
dispatcher skips), so no channel send is attempted and the entry stays
`failed` — it never converges to `sent`, although the code re-raises
precisely so the queue will redeliver. -/
theorem c2_failed_redelivery_skipped :
    processRecord (sampleEnv "g3") (some msgA) logFailedN1 =
      ⟨logFailedN1, [], none⟩ ∧
    (logFailedN1.lookup "ntf-1").map (fun en => en.status) = some "failed" := by
  decide

/-- Claim C10: a message that omits `notification_id` gets the freshly
generated `ntf_<hex>` id, so (when that id is new to the log, as uuids
are) the dedup never applies: processing equals processing the message
with the generated id spelled out, a new entry keyed by the generated id
is created, and the provider calls are those of a first delivery — sends
happen again on every redelivery. -/
theorem c10_generated_id_no_dedup (env : DispatchEnv) (m : Msg) (st : SendLog)
    (u : String) (hid : m.notification_id = none)
    (hu : truthy m.user_id = some u)
    (hfresh : st.lookup ("ntf_" ++ env.genNtf) = none) :
    processRecord env (some m) st =
      processRecord env
        (some { m with notification_id := some ("ntf_" ++ env.genNtf) }) st ∧
    ((processRecord env (some m) st).log.lookup ("ntf_" ++ env.genNtf)).isSome
      = true ∧
    (processRecord env (some m) st).calls =
      (processRecord env (some m) []).calls := by
  have hid1 : orElseStr m.notification_id ("ntf_" ++ env.genNtf) =
      "ntf_" ++ env.genNtf := by
    rw [hid]
    rfl
  have hid2 : orElseStr (some ("ntf_" ++ env.genNtf)) ("ntf_" ++ env.genNtf) =
      "ntf_" ++ env.genNtf := by
    simp [orElseStr]
  refine ⟨?_, ?_, ?_⟩
  · rw [processRecord_fresh env m st ("ntf_" ++ env.genNtf) u hid1 hu hfresh,
      processRecord_fresh env { m with notification_id := some ("ntf_" ++ env.genNtf) }
        st ("ntf_" ++ env.genNtf) u hid2 hu hfresh]
  · rw [processRecord_fresh env m st ("ntf_" ++ env.genNtf) u hid1 hu hfresh,
      emailStep_lookup_isSome]
    simp [List.lookup]
  · rw [processRecord_fresh env m st ("ntf_" ++ env.genNtf) u hid1 hu hfresh,
      processRecord_fresh env m [] ("ntf_" ++ env.genNtf) u hid1 hu rfl]
    exact emailStep_calls_indep env _ _ _ _ _ _ _ _

/-- Witness for C10: a first delivery of the id-less message creates
`ntf_g1` and sends; a redelivery with a fresh generated id `ntf_g2`
against the resulting log makes the same provider calls as a first
delivery — the dedup does not stop it. -/
theorem c10_generated_id_no_dedup_witness :
    ((processRecord (sampleEnv "g1") (some msgNoId) []).log.lookup "ntf_g1").isSome
      = true ∧
    (processRecord (sampleEnv "g2") (some msgNoId)
        (processRecord (sampleEnv "g1") (some msgNoId) []).log).calls =
      (processRecord (sampleEnv "g2") (some msgNoId) []).calls :=
  ⟨(c10_generated_id_no_dedup (sampleEnv "g1") msgNoId [] "u1" rfl (by decide)
      (by decide)).2.1,
   (c10_generated_id_no_dedup (sampleEnv "g2") msgNoId
      (processRecord (sampleEnv "g1") (some msgNoId) []).log "u1" rfl (by decide)
      (by decide)).2.2⟩

/-- Claim C4, counterexample to the claim as stated: in a batch of two
messages where the first message's channel send raises, the dispatcher
re-raises out of the record loop, so the second message is not processed
in that invocation — its notification id gets no Dispatch Log entry and
no provider call is made for it. -/
theorem c4_counterexample :
    (runBatch [(failEnv, some msgA), (sampleEnv "g2", some msgB)] []).raised
      = some "boom" ∧
    (runBatch [(failEnv, some msgA), (sampleEnv "g2", some msgB)] []).log.lookup
      "ntf-2" = none ∧
    (runBatch [(failEnv, some msgA), (sampleEnv "g2", some msgB)] []).calls =
      [ProviderCall.email "a@b.c" "Reminder" "Your appointment is coming up."] := by
  decide

/-- Claim C4 (amended): a channel-send exception is re-raised to the
transport only after the raising message's Dispatch Log entry is durably
updated to `failed` with the attempt counted and the error recorded;
messages before the failing one in the batch are fully processed, but the
re-raise aborts the loop, so the messages after it are not processed in
that invocation. -/
theorem c4_amended_batch_abort (pre : List (DispatchEnv × Option Msg))
    (env : DispatchEnv) (m : Msg) (rest : List (DispatchEnv × Option Msg))
    (st : SendLog) (ex : String)
    (hpre : (runBatch pre st).raised = none)
    (hr : (processRecord env (some m) ((runBatch pre st).log)).raised = some ex) :
    runBatch (pre ++ (env, some m) :: rest) st =
      ⟨(processRecord env (some m) ((runBatch pre st).log)).log,
        (runBatch pre st).calls ++
          (processRecord env (some m) ((runBatch pre st).log)).calls,
        some ex⟩ ∧
    ∃ en, (processRecord env (some m) ((runBatch pre st).log)).log.lookup
        (orElseStr m.notification_id ("ntf_" ++ env.genNtf)) = some en ∧
      en.status = "failed" ∧ en.attempts = 1 ∧ en.last_error = some ex := by
  constructor
  · rw [runBatch_append pre ((env, some m) :: rest) st hpre]
    simp only [runBatch, hr]
  · exact processRecord_raised env m _ ex hr

/-- Witness for C4's amended theorem at a concrete two-message batch: the
first (failing) message's entry is updated and the exception surfaces,
with the second message untouched. -/
theorem c4_amended_batch_abort_witness :
    runBatch ([] ++ (failEnv, some msgA) :: [(sampleEnv "g2", some msgB)]) [] =
      ⟨(processRecord failEnv (some msgA) []).log,
        [] ++ (processRecord failEnv (some msgA) []).calls,
        some "boom"⟩ :=
  (c4_amended_batch_abort [] failEnv msgA [(sampleEnv "g2", some msgB)] [] "boom"
    rfl (by decide)).1

/-- Claim C1: N identical valid create requests for one fingerprint are
serialized by the store's atomic two-item transaction (the single point of
mutual exclusion, so a concurrent run equals some sequential order of the
transactions): starting from a store holding neither the fingerprint's
marker nor the winning request's appointment key, exactly one request
returns 201 and the other N-1 fail the marker's absence precondition with
409; and the store invariant — at most one non-cancelled appointment per
fingerprint, each guarded by its marker — is preserved. -/
theorem c1_unique_creation (parse : String → Option PyDateTime) (p : Payload)
    (cid cb sb u ca : String) (us : List String) (store : Store) (dtU : PyDateTime)
    (hdt : to_utc parse (p.scheduled_at.getD "") = some dtU)
    (hm : store.lookup (uniqKeyOf (p.client_id.getD "") (p.service_id.getD "")
        (isoformat dtU) (p.location.getD "")) = none)
    (ha : store.lookup ("apt_" ++ u) = none)
    (hinv : StoreInv store) :
    (runCreates parse p cid (.http 200 cb) (.http 200 sb) true ca (u :: us) store).1 =
      ((201 : Nat), RespBody.created ("apt_" ++ u) "scheduled" (isoformat dtU)
          (p.location.getD "")) ::
        us.map (fun _ => ((409 : Nat),
          RespBody.err
            "Appointment already exists for this client, service, and time slot"
            none none)) ∧
    StoreInv
      (runCreates parse p cid (.http 200 cb) (.http 200 sb) true ca (u :: us) store).2 := by
  have h1 := create_ok parse p cid cb sb u ca store dtU hdt hm ha
  unfold runCreates
  rw [h1]
  simp only
  rw [runCreates_dup parse p cid cb sb ca us _ dtU hdt (by simp [List.lookup])]
  exact ⟨rfl, storeInv_insert store _ _ ca _ hinv hm rfl⟩

/-- Witness for C1 at a concrete store and three concurrent identical
requests: the first transaction wins with 201, the other two get 409, and
the final store satisfies the invariant. -/
theorem c1_unique_creation_witness :
    (runCreates testParse
        ⟨some "c1", some "s1", some "2031-05-01T08:00:00", some "loc", none⟩
        "cor-1" (.http 200 "cb") (.http 200 "sb") true "t0" ["u1", "u2", "u3"] []).1 =
      [(201, RespBody.created "apt_u1" "scheduled" "100+0" "loc"),
       (409, RespBody.err
         "Appointment already exists for this client, service, and time slot"
         none none),
       (409, RespBody.err
         "Appointment already exists for this client, service, and time slot"
         none none)] := by
  have h := c1_unique_creation testParse
    ⟨some "c1", some "s1", some "2031-05-01T08:00:00", some "loc", none⟩
    "cor-1" "cb" "sb" "u1" "t0" ["u2", "u3"] [] ⟨100, some 0⟩
    (by decide) (by decide) (by decide)
    ⟨fun k a hmem => by simp at hmem, fun fp => by simp [countFp]⟩
  rw [h.1]
  decide

/-- Claim C6: when an upstream existence check does not confirm existence
(the service URL being configured, as deployed), no store write happens
and the orchestrator returns the failing check's own error payload with
status 404 exactly when that check's outcome was a 404 ("not found"), and
503 for every other failing outcome (timeout, non-200/404 status,
transport failure). -/
theorem c6_upstream_failure_mapping (parse : String → Option PyDateTime)
    (p : Payload) (cid : String) (cres sres : UpstreamResult) (u ca : String)
    (store : Store) (dtU : PyDateTime)
    (hdt : to_utc parse (p.scheduled_at.getD "") = some dtU) :
    ((validate_client (p.client_id.getD "") cres).1 = false →
      create_appointment parse p cid cres sres true u ca store =
        ⟨if isNotFoundResult cres then 404 else 503,
          (validate_client (p.client_id.getD "") cres).2.2.getD (.err "" none none),
          store, false⟩) ∧
    ((validate_client (p.client_id.getD "") cres).1 = true →
      (validate_service (p.service_id.getD "") true sres).1 = false →
      create_appointment parse p cid cres sres true u ca store =
        ⟨if isNotFoundResult sres then 404 else 503,
          (validate_service (p.service_id.getD "") true sres).2.2.getD (.err "" none none),
          store, false⟩) := by
  constructor
  · intro hc
    rw [create_client_fail parse p cid cres sres true u ca store dtU hdt hc,
      client_error_status (p.client_id.getD "") cres hc]
  · intro hc hs
    rw [create_service_fail parse p cid cres sres true u ca store dtU hdt hc hs,
      service_error_status (p.service_id.getD "") sres hs]

/-- Witness for C6 at concrete requests: an unknown client id (upstream
404) yields a 404 with the propagated "Client not found" payload; a
service-lookup timeout yields a 503 with the propagated timeout payload;
neither writes to the store. -/
theorem c6_upstream_failure_mapping_witness :
    create_appointment testParse
        ⟨some "c1", some "s1", some "2031-05-01T08:00:00", some "loc", none⟩
        "cor-1" (.http 404 "") (.http 200 "sb") true "u1" "t0" [] =
      ⟨404, .err "Client not found" none (some "c1"), [], false⟩ ∧
    create_appointment testParse
        ⟨some "c1", some "s1", some "2031-05-01T08:00:00", some "loc", none⟩
        "cor-1" (.http 200 "cb") .timeout true "u1" "t0" [] =
      ⟨503, .err "Service timeout" (some "Services service did not respond in time")
          none, [], false⟩ := by
  constructor
  · have h := (c6_upstream_failure_mapping testParse
      ⟨some "c1", some "s1", some "2031-05-01T08:00:00", some "loc", none⟩
      "cor-1" (.http 404 "") (.http 200 "sb") "u1" "t0" [] ⟨100, some 0⟩
      (by decide)).1 (by decide)
    rw [h]
    decide
  · have h := (c6_upstream_failure_mapping testParse
      ⟨some "c1", some "s1", some "2031-05-01T08:00:00", some "loc", none⟩
      "cor-1" (.http 200 "cb") .timeout "u1" "t0" [] ⟨100, some 0⟩
      (by decide)).2 (by decide) (by decide)
    rw [h]
    decide

/-- Claim C8: (1) a parsed `scheduled_at` without a zone offset is
interpreted as UTC — its wall reading becomes the UTC instant unchanged;
(2) on a successful create, the uniqueness fingerprint, the stored record
and the response body all carry the one UTC-normalized instant produced
by `to_utc`; (3) a `scheduled_at` that does not parse yields a 400 with no
upstream call and no store write. -/
theorem c8_utc_normalization (parse : String → Option PyDateTime) :
    (∀ s dt, parse s = some dt → dt.tzoffset = none →
      to_utc parse s = some ⟨dt.wall, some 0⟩) ∧
    (∀ (p : Payload) (cid cb sb u ca : String) (store : Store) (dtU : PyDateTime),
      to_utc parse (p.scheduled_at.getD "") = some dtU →
      store.lookup (uniqKeyOf (p.client_id.getD "") (p.service_id.getD "")
        (isoformat dtU) (p.location.getD "")) = none →
      store.lookup ("apt_" ++ u) = none →
      create_appointment parse p cid (.http 200 cb) (.http 200 sb) true u ca store =
        ⟨201,
          .created ("apt_" ++ u) "scheduled" (isoformat dtU) (p.location.getD ""),
          (uniqKeyOf (p.client_id.getD "") (p.service_id.getD "") (isoformat dtU)
              (p.location.getD ""),
            Item.marker ("apt_" ++ u) ca) ::
          ("apt_" ++ u,
            Item.appt ⟨"apt_" ++ u, p.client_id.getD "", p.service_id.getD "",
              isoformat dtU, removeDashes (takeStr 10 (isoformat dtU)),
              p.location.getD "", "scheduled", p.notes.getD "", "unknown", cid, ca⟩) ::
          store,
          true⟩) ∧
    (∀ (genCid : String) (cres sres : UpstreamResult) (cfg : Bool) (u ca : String)
        (e : Event) (store : Store) (p : Payload),
      e.parsedBody = some p →
      requiredFields.filter (fun f => !(hasField p f)) = [] →
      parse (p.scheduled_at.getD "") = none →
      handler parse genCid cres sres cfg u ca e store =
        ⟨CreateAppt.response 400
            (.err "scheduled_at must be valid ISO-8601 datetime" none none)
            (corrId genCid e),
          store, false, false⟩) := by
  refine ⟨?_, ?_, ?_⟩
  · intro s dt hp hoff
    unfold to_utc
    rw [hp]
    simp [hoff]
  · intro p cid cb sb u ca store dtU hdt hm ha
    exact create_ok parse p cid cb sb u ca store dtU hdt hm ha
  · intro genCid cres sres cfg u ca e store p hb hmiss hparse
    unfold handler
    rw [hb]
    unfold validate_payload
    simp [hmiss, to_utc, hparse]

/-- Witness for C8 at concrete inputs exercising all three parts: a naive
datetime keeps its wall reading as the UTC instant; a successful create
stamps that instant into the fingerprint, the record and the response;
`"not-a-date"` yields a 400 with no upstream calls. -/
theorem c8_utc_normalization_witness :
    to_utc testParse "2031-05-01T08:00:00" = some ⟨100, some 0⟩ ∧
    create_appointment testParse
        ⟨some "c1", some "s1", some "2031-05-01T08:00:00", some "loc", none⟩
        "cor-1" (.http 200 "cb") (.http 200 "sb") true "u1" "t0" [] =
      ⟨201, .created "apt_u1" "scheduled" "100+0" "loc",
        [("UNIQ#c1#s1#100+0#loc", Item.marker "apt_u1" "t0"),
         ("apt_u1", Item.appt ⟨"apt_u1", "c1", "s1", "100+0", "100+0", "loc",
            "scheduled", "", "unknown", "cor-1", "t0"⟩)],
        true⟩ ∧
    handler testParse "g0" (.http 200 "cb") (.http 200 "sb") true "u1" "t0"
        ⟨[], some ⟨some "c1", some "s1", some "not-a-date", some "loc", none⟩⟩ [] =
      ⟨CreateAppt.response 400
          (.err "scheduled_at must be valid ISO-8601 datetime" none none) "cor-g0",
        [], false, false⟩ := by
  refine ⟨?_, ?_, ?_⟩
  · exact (c8_utc_normalization testParse).1 "2031-05-01T08:00:00" ⟨100, none⟩
      (by decide) rfl
  · have h := (c8_utc_normalization testParse).2.1
      ⟨some "c1", some "s1", some "2031-05-01T08:00:00", some "loc", none⟩
      "cor-1" "cb" "sb" "u1" "t0" [] ⟨100, some 0⟩ (by decide) (by decide) (by decide)
    rw [h]
    decide
  · have h := (c8_utc_normalization testParse).2.2 "g0" (.http 200 "cb")
      (.http 200 "sb") true "u1" "t0"
      ⟨[], some ⟨some "c1", some "s1", some "not-a-date", some "loc", none⟩⟩ []
      ⟨some "c1", some "s1", some "not-a-date", some "loc", none⟩
      rfl (by decide) (by decide)
    rw [h]
    decide

/-- Claim C3, counterexample to the claim as stated: a store failure whose
code is `TransactionCanceledException` but whose cancellation reasons hold
no `ConditionalCheckFailed` (here: a pure transaction conflict) does not
carry the precondition-failure signal, yet `create_appointment`'s error
handling reports it as a 409 duplicate. -/
theorem c3_counterexample :
    (classify_store_error ⟨"TransactionCanceledException",
        ["TransactionConflict", "None"]⟩).1 = 409 ∧
    carriesPreconditionFailureSignal ⟨"TransactionCanceledException",
        ["TransactionConflict", "None"]⟩ = false := by
  decide

/-- Claim C3 (amended): the orchestrator returns 409 for a failed store
transaction if and only if the error code is `TransactionCanceledException`
or `ConditionalCheckFailedException` — the per-item cancellation reasons
are never inspected, so a transaction canceled for a reason other than a
failed precondition is also reported as a duplicate — and every other
error code yields a 500 with the generic message. -/
theorem c3_amended_classification (e : ClientError) :
    ((classify_store_error e).1 = 409 ↔
      (e.code = "TransactionCanceledException" ∨
        e.code = "ConditionalCheckFailedException")) ∧
    ((e.code = "TransactionCanceledException" ∨
        e.code = "ConditionalCheckFailedException") →
      classify_store_error e =
        (409, .err "Appointment already exists for this client, service, and time slot"
          none none)) ∧
    (¬(e.code = "TransactionCanceledException" ∨
        e.code = "ConditionalCheckFailedException") →
      classify_store_error e = (500, .err "Failed to create appointment" none none)) := by
  unfold classify_store_error
  by_cases h : e.code = "TransactionCanceledException" ∨
      e.code = "ConditionalCheckFailedException"
  · simp [h]
  · simp [h]

/-- Witness for C3's amended theorem at concrete errors: a throttling error
is a 500, a transaction cancellation is a 409. -/
theorem c3_amended_classification_witness :
    classify_store_error ⟨"ThrottlingException", []⟩ =
      (500, .err "Failed to create appointment" none none) ∧
    classify_store_error ⟨"TransactionCanceledException", ["ConditionalCheckFailed"]⟩ =
      (409, .err "Appointment already exists for this client, service, and time slot"
        none none) :=
  ⟨(c3_amended_classification ⟨"ThrottlingException", []⟩).2.2 (by decide),
   (c3_amended_classification ⟨"TransactionCanceledException",
      ["ConditionalCheckFailed"]⟩).2.1 (by decide)⟩

/-- Claim C7: a create request whose payload lacks one or more of the
required fields `client_id, service_id, scheduled_at, location` gets a 400
whose body enumerates the complete list of missing field names, and
neither the upstream validations nor the store are touched. -/
theorem c7_missing_fields (parse : String → Option PyDateTime) (genCid : String)
    (cres sres : UpstreamResult) (cfg : Bool) (u ca : String)
    (e : Event) (store : Store) (p : Payload)
    (hb : e.parsedBody = some p)
    (hmiss : requiredFields.filter (fun f => !(hasField p f)) ≠ []) :
    handler parse genCid cres sres cfg u ca e store =
      ⟨CreateAppt.response 400
          (.missingFields "Missing required fields"
            (requiredFields.filter (fun f => !(hasField p f))))
          (corrId genCid e),
        store, false, false⟩ := by
  unfold handler
  rw [hb]
  unfold validate_payload
  simp [hmiss]

/-- Witness for C7 at a concrete payload missing two fields: both missing
names (`service_id` and `location`) are reported, and no upstream or
store call happens. -/
theorem c7_missing_fields_witness :
    handler (fun _ => none) "g0" (.http 200 "") (.http 200 "") true "u0" "t0"
        ⟨[], some ⟨some "c1", none, some "2031-05-01T08:00:00", none, none⟩⟩ [] =
      ⟨CreateAppt.response 400
          (.missingFields "Missing required fields" ["service_id", "location"])
          "cor-g0", [], false, false⟩ :=
  c7_missing_fields (fun _ => none) "g0" (.http 200 "") (.http 200 "") true "u0" "t0"
    ⟨[], some ⟨some "c1", none, some "2031-05-01T08:00:00", none, none⟩⟩ []
    ⟨some "c1", none, some "2031-05-01T08:00:00", none, none⟩ rfl (by decide)

/-- Claim C9, counterexample to the claim as stated: a request that
supplies the `X-Correlation-Id` header with the empty-string value does
not see that exact value round-tripped — Python's `or` treats the empty
string as falsy, so a generated `cor-<random>` id is used instead. -/
theorem c9_counterexample :
    get_header ⟨[("X-Correlation-Id", "")], none⟩ "X-Correlation-Id" = some "" ∧
    (handler (fun _ => none) "g0" (.http 200 "") (.http 200 "") true "u0" "t0"
        ⟨[("X-Correlation-Id", "")], none⟩ []).resp.headers.lookup "X-Correlation-Id"
      = some "cor-g0" ∧
    (handler (fun _ => none) "g0" (.http 200 "") (.http 200 "") true "u0" "t0"
        ⟨[("X-Correlation-Id", "")], none⟩ []).resp.body_correlation_id = "cor-g0" ∧
    ("cor-g0" : String) ≠ "" := by
  decide

/-- Claim C9 (amended): every create response carries the handler's
correlation id both in the `X-Correlation-Id` header and in the body; when
the request supplies a non-empty `X-Correlation-Id` header that exact
value is used unchanged, and when the header is absent or empty the
generated `cor-<random>` id is used. -/
theorem c9_amended_correlation (parse : String → Option PyDateTime)
    (genCid : String) (cres sres : UpstreamResult) (cfg : Bool) (u ca : String)
    (e : Event) (store : Store) :
    ((handler parse genCid cres sres cfg u ca e store).resp.headers.lookup
        "X-Correlation-Id" = some (corrId genCid e)) ∧
    ((handler parse genCid cres sres cfg u ca e store).resp.body_correlation_id
      = corrId genCid e) ∧
    (∀ v, get_header e "X-Correlation-Id" = some v → v ≠ "" → corrId genCid e = v) ∧
    ((get_header e "X-Correlation-Id" = none ∨
        get_header e "X-Correlation-Id" = some "") →
      corrId genCid e = "cor-" ++ genCid) := by
  obtain ⟨st, b, hr⟩ := handler_resp_is_response parse genCid cres sres cfg u ca e store
  refine ⟨?_, ?_, ?_, ?_⟩
  · rw [hr]; exact (response_carries_correlation st b (corrId genCid e)).1
  · rw [hr]; exact (response_carries_correlation st b (corrId genCid e)).2
  · intro v hv hne
    unfold corrId orElseStr
    rw [hv]
    simp [hne]
  · intro hcase
    unfold corrId orElseStr
    rcases hcase with h | h
    · rw [h]
    · rw [h]; simp

/-- Witness for C9's amended theorem at concrete requests: a supplied
non-empty header id round-trips into header and body; an absent header
yields the generated id in both. -/
theorem c9_amended_correlation_witness :
    (handler (fun _ => none) "g0" (.http 200 "") (.http 200 "") true "u0" "t0"
        ⟨[("x-correlation-id", "cid-42")], none⟩ []).resp.body_correlation_id
      = "cid-42" ∧
    (handler (fun _ => none) "g0" (.http 200 "") (.http 200 "") true "u0" "t0"
        ⟨[], none⟩ []).resp.headers.lookup "X-Correlation-Id" = some "cor-g0" := by
  constructor
  · have h := c9_amended_correlation (fun _ => none) "g0" (.http 200 "") (.http 200 "")
      true "u0" "t0" ⟨[("x-correlation-id", "cid-42")], none⟩ []
    rw [h.2.1, h.2.2.1 "cid-42" (by decide) (by decide)]
  · have h := c9_amended_correlation (fun _ => none) "g0" (.http 200 "") (.http 200 "")
      true "u0" "t0" ⟨[], none⟩ []
    rw [h.1, h.2.2.2 (Or.inl (by decide))]
    decide

